import Mathlib

/-!
Shallow embedding of the order-saga / auth-guard / billing-consumer core of a
NestJS + RabbitMQ microservice system.  The embedded functions follow,
clause by clause, `OrdersService.createOrder` and `OrdersService.getOrders`
(apps/orders/src/orders.service.ts), `AbstractRepository.create` and
`AbstractRepository.find` (the shared mongo repository),
`JwtAuthGuard.canActivate` / `getAuthentication` / `addUser`
(libs/common/src/auth/jwt-auth.guard.ts),
`BillingController.handleOrderCreated` (apps/billing/src/billing.controller.ts),
and `RmqService.getOptions` / `RmqService.ack` (libs/common/src/rmq/rmq.service.ts).

Asynchrony is embedded as explicit event traces: each awaited call appears as
an event whose `awaited` flag records whether the source used `await` on it.
Fallible external calls (the mongo insert, the broker publish, the remote
auth reply) are parameters that fix the behaviour of the external collaborator
for the one invocation being analysed.
-/

namespace App

/-- Error values propagated by rejected promises; `throw err` re-throws the
same value, so errors are compared for equality. -/
abbrev Err := String

/-- The order-creation request DTO (dto/create-order.req.ts): name, price,
phoneNumber. -/
structure CreateOrderReq where
  name : String
  price : Int
  phoneNumber : String
deriving DecidableEq, Repr

/-- An Order document as produced by `AbstractRepository.create`: the spread
of the request plus a freshly generated `_id`. -/
structure Order where
  _id : Nat
  name : String
  price : Int
  phoneNumber : String
deriving DecidableEq, Repr

/-- `AbstractRepository.create(document, options)`: builds
`new this.model({...document, _id: new Types.ObjectId()})` and saves it in the
session.  The generated ObjectId is embedded as the `freshId` parameter. -/
def AbstractRepository.create (request : CreateOrderReq) (freshId : Nat) : Order :=
  { _id := freshId
    name := request.name
    price := request.price
    phoneNumber := request.phoneNumber }

/-- A single conjunct of a mongoose `FilterQuery` on Order documents. -/
inductive OrderFilter
  | nameEq (s : String)
  | priceEq (n : Int)
  | phoneEq (s : String)
  | idEq (n : Nat)
deriving DecidableEq, Repr

/-- Whether an Order document satisfies one filter conjunct. -/
def Order.matchesFilter (o : Order) : OrderFilter → Bool
  | .nameEq s => o.name = s
  | .priceEq n => o.price = n
  | .phoneEq s => o.phoneNumber = s
  | .idEq n => o._id = n

/-- `AbstractRepository.find(filterQuery)`: `this.model.find(filterQuery, {},
{lean: true})` — every stored document matching all conjuncts of the filter.
The empty filter `{}` is the empty conjunct list. -/
def AbstractRepository.find (filterQuery : List OrderFilter) (store : List Order) :
    List Order :=
  store.filter (fun o => filterQuery.all (fun c => o.matchesFilter c))

/-- The steps of one `createOrder` invocation that touch the store or the
broker. -/
inductive SagaStep
  | startTxn
  | insertDoc
  | publishMsg
  | commitTxn
  | abortTxn
deriving DecidableEq, Repr

/-- One event of the saga trace: which call was issued and whether the source
used `await` on it. -/
structure SagaEvent where
  step : SagaStep
  awaited : Bool
deriving DecidableEq, Repr

/-- Behaviour of the external collaborators during one `createOrder`
invocation: `insertError = some e` means `ordersRepository.create` rejects
with `e`; `publishError = some e` means
`lastValueFrom(billingClient.emit(ORDER_CREATED, …))` rejects with `e`. -/
structure SagaEnv where
  insertError : Option Err
  publishError : Option Err
deriving DecidableEq, Repr

/-- Payload of the ORDER_CREATED event: `{ request }`. -/
structure OrderCreatedMsg where
  request : CreateOrderReq
deriving DecidableEq, Repr

/-- Result of one `createOrder` invocation: the ordered trace of store/broker
calls, the settled result of the returned promise, the committed contents of
the store after all issued operations settle, and the messages accepted by
the broker. -/
structure SagaOutcome where
  trace : List SagaEvent
  result : Except Err Order
  store : List Order
  published : List OrderCreatedMsg
deriving Repr

/-- `OrdersService.createOrder(request)` (orders.service.ts lines 38-60):
start a transaction (awaited); inside `try`, insert the order in the session
(awaited) and emit ORDER_CREATED with payload `{request}` (awaited via
`lastValueFrom`); then call `session.commitTransaction()` WITHOUT `await` and
return the order.  On any rejection the `catch` block awaits
`session.abortTransaction()` and re-throws the same error. -/
def createOrder (env : SagaEnv) (store : List Order) (freshId : Nat)
    (request : CreateOrderReq) : SagaOutcome :=
  let t0 : List SagaEvent := [⟨.startTxn, true⟩]
  match env.insertError with
  | some e =>
      { trace := t0 ++ [⟨.insertDoc, true⟩, ⟨.abortTxn, true⟩]
        result := .error e
        store := store
        published := [] }
  | none =>
      let order := AbstractRepository.create request freshId
      match env.publishError with
      | some e =>
          { trace := t0 ++ [⟨.insertDoc, true⟩, ⟨.publishMsg, true⟩, ⟨.abortTxn, true⟩]
            result := .error e
            store := store
            published := [] }
      | none =>
          { trace := t0 ++ [⟨.insertDoc, true⟩, ⟨.publishMsg, true⟩, ⟨.commitTxn, false⟩]
            result := .ok order
            store := store ++ [order]
            published := [⟨request⟩] }

/-- `OrdersService.getOrders()`: `this.ordersRepository.find({})`. -/
def getOrders (store : List Order) : List Order :=
  AbstractRepository.find [] store

/-- The identity record the Credential Authority returns for a valid token. -/
structure User where
  id : String
  email : String
deriving DecidableEq, Repr

/-- Name of the cookie and of the RPC payload field holding the token. -/
def authFieldName : String := "Authentication"

/-- An HTTP request as the guard sees it: `req.cookies` (absent when the
cookie-parser middleware did not run, hence the optional chaining
`cookies?.Authentication` in the source) and the `user` slot `addUser`
writes. -/
structure HttpRequest where
  cookies : Option (List (String × String))
  user : Option User
deriving DecidableEq, Repr

/-- The RPC data payload as the guard sees it: its `Authentication` field and
the `user` slot `addUser` writes. -/
structure RpcData where
  authentication : Option String
  user : Option User
deriving DecidableEq, Repr

/-- The NestJS execution context, of kind http or rpc. -/
inductive ExecutionContext
  | http (request : HttpRequest)
  | rpc (data : RpcData)
deriving DecidableEq, Repr

/-- `JwtAuthGuard.getAuthentication(context)` (jwt-auth.guard.ts lines 80-95):
rpc → `context.switchToRpc().getData().Authentication`; http →
`context.switchToHttp().getRequest().cookies?.Authentication`; then
`if (!authentication) throw new UnauthorizedException(…)`.  `none` is the
thrown UnauthorizedException; note that the empty string is falsy in
JavaScript, so it too throws. -/
def getAuthentication (context : ExecutionContext) : Option String :=
  let authentication : Option String :=
    match context with
    | .rpc d => d.authentication
    | .http r => r.cookies.bind (fun cs => cs.lookup authFieldName)
  match authentication with
  | none => none
  | some s => if s = "" then none else some s

/-- `JwtAuthGuard.addUser(user, context)` (lines 107-115): rpc →
`getData().user = user`; http → `getRequest().user = user`. -/
def addUser (user : User) (context : ExecutionContext) : ExecutionContext :=
  match context with
  | .rpc d => .rpc { d with user := some user }
  | .http r => .http { r with user := some user }

/-- Behaviour of the `authClient.send(USER_VALIDATE, …)` observable for the
one invocation analysed: a success reply carrying the identity, an error
reply / channel error, or no reply ever. -/
inductive AuthReply
  | success (user : User)
  | failure
  | silent
deriving DecidableEq, Repr

/-- How the observable returned by `canActivate` settles: it emits the
authority response (after `tap` ran `addUser` on the context), it errors with
UnauthorizedException, or — since the pipe contains no timeout operator — it
never settles at all. -/
inductive GuardOutcome
  | allow (response : User) (context : ExecutionContext)
  | unauthorized
  | pending
deriving DecidableEq, Repr

/-- One run of the guard: how its observable settles, and the list of
USER_VALIDATE payloads (token strings) sent to the AUTH_SERVICE. -/
structure GuardRun where
  outcome : GuardOutcome
  sent : List String
deriving DecidableEq, Repr

/-- `JwtAuthGuard.canActivate(context)` (lines 49-68): extract the token via
`getAuthentication` (throwing UnauthorizedException when absent, before any
send); otherwise send `{Authentication: jwt}` to AUTH_SERVICE and pipe the
reply through `tap(addUser)` and `catchError(throw UnauthorizedException)`.
No timeout operator appears in the pipe, so a reply-less send leaves the
observable pending. -/
def canActivate (reply : AuthReply) (context : ExecutionContext) : GuardRun :=
  match getAuthentication context with
  | none => { outcome := .unauthorized, sent := [] }
  | some authenticationJwt =>
      match reply with
      | .success user =>
          { outcome := .allow user (addUser user context), sent := [authenticationJwt] }
      | .failure =>
          { outcome := .unauthorized, sent := [authenticationJwt] }
      | .silent =>
          { outcome := .pending, sent := [authenticationJwt] }

/-- The outcome the billing business logic reports (through its own side
channel, the logger); `BillingService.bill` itself just logs and returns. -/
inductive BillReport
  | done
  | failed (reason : String)
deriving DecidableEq, Repr

/-- A delivered broker message: delivery tag plus ORDER_CREATED payload. -/
structure BrokerMsg where
  tag : Nat
  payload : OrderCreatedMsg
deriving DecidableEq, Repr

/-- The RmqContext of a delivery: the channel (its list of unacknowledged
deliveries) and the original message. -/
structure RmqCtx where
  channel : List BrokerMsg
  message : BrokerMsg
deriving DecidableEq, Repr

/-- `RmqService.ack(context)` (rmq.service.ts lines 50-54):
`channel.ack(originalMessage)` — the delivery is removed from the channel's
unacknowledged list. -/
def RmqService.ack (context : RmqCtx) : List BrokerMsg :=
  context.channel.erase context.message

/-- The calls `handleOrderCreated` makes, in order. -/
inductive BillingEvent
  | billCall (report : BillReport) (data : OrderCreatedMsg)
  | ackCall
deriving DecidableEq, Repr

/-- One run of the billing consumer handler: its ordered calls and the
channel state after it returns. -/
structure BillingRun where
  trace : List BillingEvent
  channelAfter : List BrokerMsg
deriving DecidableEq, Repr

/-- `BillingController.handleOrderCreated(data, context)` (billing.controller.ts
lines 39-44): call `billingService.bill(data)` — which returns normally
whatever outcome it reports through its logger — then call
`rmqService.ack(context)`.  No branch inspects the processing outcome. -/
def handleOrderCreated (report : BillReport) (data : OrderCreatedMsg)
    (context : RmqCtx) : BillingRun :=
  { trace := [.billCall report data, .ackCall]
    channelAfter := RmqService.ack context }

/-- Application configuration: `configService.get<string>(key)`. -/
structure ConfigService where
  get : String → Option String

/-- The NestJS microservice transport selector; only RMQ is used here. -/
inductive Transport
  | RMQ
deriving DecidableEq, Repr

/-- The `options` part of the RmqOptions built by `RmqService.getOptions`. -/
structure RmqQueueOptions where
  urls : List (Option String)
  queue : Option String
  noAck : Bool
  persistent : Bool
deriving DecidableEq, Repr

/-- The RmqOptions object handed to a NestJS client or listener. -/
structure RmqOptions where
  transport : Transport
  options : RmqQueueOptions
deriving DecidableEq, Repr

/-- `RmqService.getOptions(queue, acknowledgements = false)` (rmq.service.ts
lines 27-42): transport RMQ, urls from RABBIT_MQ_URI, queue name from
RABBIT_MQ_<queue>_QUEUE, `noAck: acknowledgements`, `persistent: true`. -/
def RmqService.getOptions (configService : ConfigService) (queue : String)
    (acknowledgements : Bool := false) : RmqOptions :=
  { transport := .RMQ
    options :=
      { urls := [configService.get ("RABBIT_MQ_URI")]
        queue := configService.get ("RABBIT_MQ_" ++ queue ++ "_QUEUE")
        noAck := acknowledgements
        persistent := true } }

/-- Modelled from the spec: the queue-name constant `QUEUE_AUTH` exported by
the @app/common constants module, which is not among the sources; queue names
are environment-supplied configuration keys and the exact string is
immaterial to the claims. -/
def QUEUE_AUTH : String := "AUTH"

/-- The auth service bootstrap (its `main.ts`):
`app.connectMicroservice<RmqOptions>(rmqService.getOptions(QUEUE_AUTH, true))`. -/
def authBootstrapOptions (configService : ConfigService) : RmqOptions :=
  RmqService.getOptions configService QUEUE_AUTH true

/-- Recognizer for the acknowledgement call in a billing trace. -/
def BillingEvent.isAck : BillingEvent → Bool
  | .ackCall => true
  | _ => false

/-! Concrete fixtures used by witnesses and counterexamples. -/

/-- The creation request of the spec scenario. -/
def reqLaptop : CreateOrderReq :=
  { name := ("Laptop"), price := 1200, phoneNumber := ("+15550000") }

/-- Healthy store and broker: neither the insert nor the publish rejects. -/
def envHealthy : SagaEnv := { insertError := none, publishError := none }

/-- The broker publish rejects. -/
def envPubFail : SagaEnv :=
  { insertError := none, publishError := some ("broker-unreachable") }

/-- The store insert rejects. -/
def envInsFail : SagaEnv :=
  { insertError := some ("write-rejected"), publishError := none }

/-- A pre-existing stored order. -/
def orderA : Order :=
  { _id := 1, name := ("Mouse"), price := 5, phoneNumber := ("+15551111") }

/-- The identity of the spec scenario. -/
def userU1 : User := { id := ("u1"), email := ("a@b.com") }

/-- An RPC payload carrying the scenario token. -/
def rpcWithToken : RpcData := { authentication := some ("valid-123"), user := none }

/-- An HTTP request whose Authentication cookie carries the scenario token. -/
def httpWithToken : HttpRequest :=
  { cookies := some [(authFieldName, ("valid-123"))], user := none }

/-- An HTTP request with parsed cookies but no Authentication cookie. -/
def httpNoCookie : HttpRequest := { cookies := some [], user := none }

/-- An RPC payload with no Authentication field. -/
def rpcNoToken : RpcData := { authentication := none, user := none }

/-! Claim theorems. -/

/-- C1 counterexample: in a fully successful run the commit call is issued
without `await` — it is not true that every step of the saga trace is
awaited, so the claim that the coordinator suspends on insert, publish AND
commit, returning only after the commit completed, is false on the code. -/
theorem createOrder_commit_not_awaited :
    ¬ (∀ e ∈ (createOrder envHealthy [] 7 reqLaptop).trace, e.awaited = true) := by
  decide

/-- C1 (amended): when the insert and the publish both succeed, the saga
performs start-transaction, insert, publish, commit strictly in that order,
awaiting the insert and the publish; the commit is only initiated — not
awaited — and the created Order is returned right after that initiation,
without waiting for the commit to complete. -/
theorem createOrder_success_awaits (env : SagaEnv) (store : List Order)
    (freshId : Nat) (request : CreateOrderReq)
    (hIns : env.insertError = none) (hPub : env.publishError = none) :
    (createOrder env store freshId request).trace =
      [⟨.startTxn, true⟩, ⟨.insertDoc, true⟩, ⟨.publishMsg, true⟩,
        ⟨.commitTxn, false⟩] ∧
    (createOrder env store freshId request).result =
      .ok (AbstractRepository.create request freshId) := by
  simp [createOrder, hIns, hPub]

/-- C1 witness: the amended claim at the scenario request on an empty store. -/
theorem createOrder_success_awaits_witness :
    (createOrder envHealthy [] 7 reqLaptop).trace =
      [⟨.startTxn, true⟩, ⟨.insertDoc, true⟩, ⟨.publishMsg, true⟩,
        ⟨.commitTxn, false⟩] ∧
    (createOrder envHealthy [] 7 reqLaptop).result =
      .ok (AbstractRepository.create reqLaptop 7) :=
  createOrder_success_awaits envHealthy [] 7 reqLaptop rfl rfl

/-- C2 counterexample: with a token present and a Credential Authority that
never replies, the guard run stays pending — it does not resolve with
UnauthorizedException within any timeout, because the pipeline contains no
timeout operator; the claim is false on the code. -/
theorem canActivate_silent_not_bounded :
    (canActivate .silent (.rpc rpcWithToken)).outcome = GuardOutcome.pending ∧
    (canActivate .silent (.rpc rpcWithToken)).outcome ≠ GuardOutcome.unauthorized := by
  decide

/-- C2 (amended): the guard applies no timeout: whenever a token is
extracted and the Credential Authority never replies, the guard observable
never settles (the caller task is left suspended indefinitely), after the
single validation request was sent. -/
theorem canActivate_silent_pending (context : ExecutionContext) (t : String)
    (h : getAuthentication context = some t) :
    (canActivate .silent context).outcome = GuardOutcome.pending ∧
    (canActivate .silent context).sent = [t] := by
  simp [canActivate, h]

/-- C2 witness: the amended claim at a concrete RPC context carrying the
scenario token. -/
theorem canActivate_silent_pending_witness :
    (canActivate .silent (.rpc rpcWithToken)).outcome = GuardOutcome.pending ∧
    (canActivate .silent (.rpc rpcWithToken)).sent = [("valid-123")] :=
  canActivate_silent_pending (.rpc rpcWithToken) ("valid-123") (by decide)

/-- C3: when the insert succeeds but the publish fails, the in-flight
transaction is aborted (awaited), the publish error is surfaced to the caller
unchanged, the committed store is untouched, and the freshly created order is
not visible via a subsequent getOrders. -/
theorem createOrder_publish_failure (env : SagaEnv) (e : Err) (store : List Order)
    (freshId : Nat) (request : CreateOrderReq)
    (hIns : env.insertError = none) (hPub : env.publishError = some e)
    (hFresh : ∀ o ∈ store, o._id ≠ freshId) :
    (createOrder env store freshId request).result = .error e ∧
    (⟨.abortTxn, true⟩ : SagaEvent) ∈ (createOrder env store freshId request).trace ∧
    getOrders (createOrder env store freshId request).store = store ∧
    ∀ o ∈ getOrders (createOrder env store freshId request).store, o._id ≠ freshId := by
  refine ⟨?_, ?_, ?_, ?_⟩ <;>
    simp [createOrder, hIns, hPub, getOrders, AbstractRepository.find]
  exact hFresh

/-- C3 witness: the claim at the scenario request, a store holding one other
order, and a broker that rejects the publish. -/
theorem createOrder_publish_failure_witness :
    (createOrder envPubFail [orderA] 7 reqLaptop).result = .error ("broker-unreachable") ∧
    (⟨.abortTxn, true⟩ : SagaEvent) ∈ (createOrder envPubFail [orderA] 7 reqLaptop).trace ∧
    getOrders (createOrder envPubFail [orderA] 7 reqLaptop).store = [orderA] ∧
    ∀ o ∈ getOrders (createOrder envPubFail [orderA] 7 reqLaptop).store, o._id ≠ 7 :=
  createOrder_publish_failure envPubFail ("broker-unreachable") [orderA] 7 reqLaptop
    rfl rfl (by decide)

/-- C4: when the insert fails, the transaction is aborted (awaited), the
underlying insert error is returned unchanged, no publish step appears in the
trace, nothing is published, and the store is untouched. -/
theorem createOrder_insert_failure (env : SagaEnv) (e : Err) (store : List Order)
    (freshId : Nat) (request : CreateOrderReq)
    (hIns : env.insertError = some e) :
    (createOrder env store freshId request).result = .error e ∧
    (⟨.abortTxn, true⟩ : SagaEvent) ∈ (createOrder env store freshId request).trace ∧
    (∀ ev ∈ (createOrder env store freshId request).trace,
      ev.step ≠ SagaStep.publishMsg) ∧
    (createOrder env store freshId request).published = [] ∧
    (createOrder env store freshId request).store = store := by
  refine ⟨?_, ?_, ?_, ?_, ?_⟩ <;> simp [createOrder, hIns]

/-- C4 witness: the claim at the scenario request with a rejecting store. -/
theorem createOrder_insert_failure_witness :
    (createOrder envInsFail [orderA] 7 reqLaptop).result = .error ("write-rejected") ∧
    (⟨.abortTxn, true⟩ : SagaEvent) ∈ (createOrder envInsFail [orderA] 7 reqLaptop).trace ∧
    (∀ ev ∈ (createOrder envInsFail [orderA] 7 reqLaptop).trace,
      ev.step ≠ SagaStep.publishMsg) ∧
    (createOrder envInsFail [orderA] 7 reqLaptop).published = [] ∧
    (createOrder envInsFail [orderA] 7 reqLaptop).store = [orderA] :=
  createOrder_insert_failure envInsFail ("write-rejected") [orderA] 7 reqLaptop rfl

/-- C5: with a healthy store and broker, createOrder returns an Order carrying
the freshly generated id — unique relative to the existing store — and the
same name, price and phoneNumber as the request, and publishes exactly one
ORDER_CREATED notification, whose payload wraps the original request. -/
theorem createOrder_success_payload (env : SagaEnv) (store : List Order)
    (freshId : Nat) (request : CreateOrderReq)
    (hIns : env.insertError = none) (hPub : env.publishError = none)
    (hFresh : ∀ o ∈ store, o._id ≠ freshId) :
    ∃ order : Order,
      (createOrder env store freshId request).result = .ok order ∧
      order._id = freshId ∧
      order.name = request.name ∧
      order.price = request.price ∧
      order.phoneNumber = request.phoneNumber ∧
      (∀ o ∈ store, o._id ≠ order._id) ∧
      (createOrder env store freshId request).published = [⟨request⟩] := by
  refine ⟨AbstractRepository.create request freshId, ?_, rfl, rfl, rfl, rfl, ?_, ?_⟩ <;>
    simp [createOrder, hIns, hPub, AbstractRepository.create]
  exact hFresh

/-- C5 witness: the claim at the scenario request over a store holding one
other order. -/
theorem createOrder_success_payload_witness :
    ∃ order : Order,
      (createOrder envHealthy [orderA] 7 reqLaptop).result = .ok order ∧
      order._id = 7 ∧
      order.name = reqLaptop.name ∧
      order.price = reqLaptop.price ∧
      order.phoneNumber = reqLaptop.phoneNumber ∧
      (∀ o ∈ [orderA], o._id ≠ order._id) ∧
      (createOrder envHealthy [orderA] 7 reqLaptop).published = [⟨reqLaptop⟩] :=
  createOrder_success_payload envHealthy [orderA] 7 reqLaptop rfl rfl (by decide)

/-- C6: when no token can be extracted — no Authentication cookie on the HTTP
request, no Authentication field in the RPC payload — the guard fails with
UnauthorizedException immediately and sends no validation request to the
Credential Authority, whatever the authority would have replied. -/
theorem canActivate_missing_token (reply : AuthReply) (r : HttpRequest) (d : RpcData)
    (hr : r.cookies.bind (fun cs => cs.lookup authFieldName) = none)
    (hd : d.authentication = none) :
    canActivate reply (.http r) = { outcome := .unauthorized, sent := [] } ∧
    canActivate reply (.rpc d) = { outcome := .unauthorized, sent := [] } := by
  constructor <;> simp [canActivate, getAuthentication, hr, hd]

/-- C6 witness: the claim at a cookie-less HTTP request and a token-less RPC
payload. -/
theorem canActivate_missing_token_witness :
    canActivate .failure (.http httpNoCookie) = { outcome := .unauthorized, sent := [] } ∧
    canActivate .failure (.rpc rpcNoToken) = { outcome := .unauthorized, sent := [] } :=
  canActivate_missing_token .failure httpNoCookie rpcNoToken (by decide) rfl

/-- C7: for a present (non-falsy) token and a successful authority reply, the
guard resolves to exactly the returned identity and attaches it at the fixed
per-kind location — the user field of the HTTP request, the user field of the
RPC data payload — the token having been read from the Authentication cookie
respectively the Authentication payload field; both kinds send the same
single validation payload and produce the same allow outcome. -/
theorem canActivate_valid_token (u : User) (t : String) (r : HttpRequest)
    (d : RpcData) (ht : t ≠ "")
    (hr : r.cookies.bind (fun cs => cs.lookup authFieldName) = some t)
    (hd : d.authentication = some t) :
    canActivate (.success u) (.http r) =
      { outcome := .allow u (.http { r with user := some u }), sent := [t] } ∧
    canActivate (.success u) (.rpc d) =
      { outcome := .allow u (.rpc { d with user := some u }), sent := [t] } := by
  constructor <;> simp [canActivate, getAuthentication, addUser, hr, hd, ht]

/-- C7 witness: the claim at the scenario token and identity, for one HTTP
and one RPC context. -/
theorem canActivate_valid_token_witness :
    canActivate (.success userU1) (.http httpWithToken) =
      { outcome := .allow userU1 (.http { httpWithToken with user := some userU1 }),
        sent := [("valid-123")] } ∧
    canActivate (.success userU1) (.rpc rpcWithToken) =
      { outcome := .allow userU1 (.rpc { rpcWithToken with user := some userU1 }),
        sent := [("valid-123")] } :=
  canActivate_valid_token userU1 ("valid-123") httpWithToken rpcWithToken
    (by decide) (by decide) rfl

/-- C8: for every received notification the billing consumer calls the
processing logic first and then acknowledges exactly once, whatever outcome
the processing logic reports: the trace is always billCall then ackCall, the
acknowledgement count is one, and the channel after the handler equals the
channel with the one delivery removed. -/
theorem handleOrderCreated_ack_unconditional (report : BillReport)
    (data : OrderCreatedMsg) (context : RmqCtx) :
    (handleOrderCreated report data context).trace = [.billCall report data, .ackCall] ∧
    ((handleOrderCreated report data context).trace.filter BillingEvent.isAck).length
      = 1 ∧
    (handleOrderCreated report data context).channelAfter =
      context.channel.erase context.message := by
  exact ⟨rfl, rfl, rfl⟩

/-- C9: getOrders is the unfiltered read: it returns every stored order, and
on the empty store it returns the empty list (it is a total function — no
error is possible). -/
theorem getOrders_returns_all (store : List Order) :
    getOrders store = store ∧ getOrders ([] : List Order) = [] := by
  constructor <;> simp [getOrders, AbstractRepository.find]

/-- C10: getOptions returns noAck equal to its second parameter and
persistent true; the default call leaves noAck false (manual acknowledgement
enabled), while passing true — as the auth bootstrap does for the auth
queue — disables acknowledgements, inverting the sense suggested by the
parameter name. -/
theorem getOptions_noAck_persistent (configService : ConfigService)
    (queue : String) (a : Bool) :
    (RmqService.getOptions configService queue a).options.noAck = a ∧
    (RmqService.getOptions configService queue a).options.persistent = true ∧
    (RmqService.getOptions configService queue).options.noAck = false ∧
    (authBootstrapOptions configService).options.noAck = true :=
  ⟨rfl, rfl, rfl, rfl⟩

end App
